import Mathlib

/-!
Verification of `custom::library::Result<T,E>` from src/lib/result.hpp.

The build (src/unnamed/part_000) compiles the header with -std=c++14, so the
storage actually built is the pre-C++17 branch: a `union { T value_; E error_; }`
together with a `bool has_value_` discriminant, with hand-written placement
construction and destruction (src/lib/result.hpp lines 430-449).

Embedding conventions:
- Each union member is modelled as an `Option`: `some x` means that member is
  currently constructed (live) and holds `x`; `none` means it is not
  constructed.  Reading or destroying a non-constructed member is undefined
  behaviour in C++ and is modelled as the `none` / `Fault.deadAccess` outcome.
- A thrown `std::runtime_error` ("No value" / "No error") is modelled with
  `Except`, as `Fault.noValue` / `Fault.noError`.
- The C++ templates constrain `E` to be `Status` and `T` to differ from
  `Status` via static_asserts (lines 83-90); the member-function bodies are
  generic, so the embedding keeps `T` and `E` as type parameters.
- `std::move` of a payload transfers its value while leaving the source
  member constructed (moved-from but alive); the embedding returns the
  residual source state explicitly, keeping the stored value as the stand-in
  for the live moved-from object.
- The `this != &other` pointer-identity test in the assignment operators is
  modelled by an explicit `aliased` flag: `aliased = true` is the
  self-assignment call `r = r`.
-/

namespace CustomLibrary

/-- Embedding of `enum Status : std::uint32_t { OK = 0, INVALID_ARG, ERROR }`
(src/lib/result.hpp line 36). -/
inductive Status where
  | OK
  | INVALID_ARG
  | ERROR
deriving DecidableEq, Fintype

/-- The underlying numeric code of a `Status` member, as fixed by the C++
enumerator list: `OK = 0`, then `INVALID_ARG`, `ERROR` auto-increment. -/
def Status.code : Status → Nat
  | .OK => 0
  | .INVALID_ARG => 1
  | .ERROR => 2

/-- Embedding of `ErrorCreate<E>` (src/lib/result.hpp lines 43-63): a thin
wrapper holding exactly one error value. -/
structure ErrorCreate (E : Type) where
  error_ : E
deriving DecidableEq

/-- Embedding of `ErrorCreate<E>::getError` (lines 56-59); all four
reference-qualified overloads yield the stored error. -/
def ErrorCreate.getError {E : Type} (e : ErrorCreate E) : E := e.error_

/-- Embedding of the free function `createError` (lines 67-71). -/
def createError {E : Type} (e : E) : ErrorCreate E := ⟨e⟩

/-- Faults of the embedding: `noValue` and `noError` are the thrown
`std::runtime_error("No value")` / `("No error")` misuse faults
(src/lib/result.hpp lines 268, 340); `deadAccess` marks the undefined
behaviour of touching a union member that is not constructed. -/
inductive Fault where
  | noValue
  | noError
  | deadAccess
deriving DecidableEq

/-- Embedding of the C++14 storage of `Result<T,E>` (src/lib/result.hpp
lines 444-448): the union of the two payload slots plus the `has_value_`
flag.  A slot is `some` exactly when that union member is currently
constructed. -/
structure Result (T E : Type) where
  value_ : Option T
  error_ : Option E
  has_value_ : Bool
deriving DecidableEq

namespace Result

variable {T E U : Type}

/-- Embedding of `hasValue` (line 426): returns the discriminant. -/
def hasValue (r : Result T E) : Bool := r.has_value_

/-- Embedding of `explicit operator bool()` (line 415): same as `hasValue`. -/
def toBool (r : Result T E) : Bool := r.hasValue

/-- Embedding of the default constructor (lines 105-108): requires `T` to be
default constructible (modelled by `Inhabited`, with `default` standing for
`T()`); placement-constructs the value member and sets the flag. -/
def mkDefault [Inhabited T] : Result T E :=
  { value_ := some default, error_ := none, has_value_ := true }

/-- Embedding of the value constructor `Result(U and-and other)`
(lines 116-128): enabled only when `decay_t<U>` differs from `E` and `T` is
constructible from `U`; the conversion `T(std::forward<U>(other))` is
modelled by the function `conv`.  Placement-constructs the value member. -/
def ofValue (conv : U → T) (v : U) : Result T E :=
  { value_ := some (conv v), error_ := none, has_value_ := true }

/-- Embedding of the error constructor `Result(E and-and error)`
(lines 142-145): placement-constructs the error member and clears the flag.
Overload resolution sends any argument of type `E` here, because the value
constructor is excluded for it (lines 116-118). -/
def ofError (e : E) : Result T E :=
  { value_ := none, error_ := some e, has_value_ := false }

/-- Embedding of the `Result(ErrorCreate<U> and-and)` constructor
(lines 156-159): unwraps the tag with `getError()` and placement-constructs
the error member. -/
def ofErrorCreate (ec : ErrorCreate E) : Result T E :=
  { value_ := none, error_ := some ec.getError, has_value_ := false }

/-- Embedding of `getValue() const &` and `getValue() &` (lines 265-293):
throws "No value" when the discriminant says error, otherwise returns the
value member (reading it while not constructed would be UB). -/
def getValue (r : Result T E) : Except Fault T :=
  if !r.hasValue then .error .noValue
  else
    match r.value_ with
    | some v => .ok v
    | none => .error .deadAccess

/-- Embedding of `getValue() &&` and `getValue() const &&` (lines 301-329):
same fault check, then `std::move(value_)` hands the payload out while the
member stays constructed; the residual Result is returned alongside. -/
def getValueMove (r : Result T E) : Except Fault (T × Result T E) :=
  if !r.hasValue then .error .noValue
  else
    match r.value_ with
    | some v => .ok (v, r)
    | none => .error .deadAccess

/-- Embedding of `getError() &` and `getError() const &` (lines 337-365):
throws "No error" when the discriminant says value, otherwise returns the
error member. -/
def getError (r : Result T E) : Except Fault E :=
  if r.hasValue then .error .noError
  else
    match r.error_ with
    | some e => .ok e
    | none => .error .deadAccess

/-- Embedding of `getError() &&` and `getError() const &&` (lines 373-401):
same fault check, then moves the payload out, member stays constructed. -/
def getErrorMove (r : Result T E) : Except Fault (E × Result T E) :=
  if r.hasValue then .error .noError
  else
    match r.error_ with
    | some e => .ok (e, r)
    | none => .error .deadAccess

/-- Embedding of the destructor body `destruct` (lines 434-442): destroys
exactly the member the discriminant selects; destroying a non-constructed
member is UB, modelled as `none`. -/
def destruct (r : Result T E) : Option Unit :=
  if r.has_value_ then r.value_.map fun _ => ()
  else r.error_.map fun _ => ()

/-- Embedding of the copy constructor (lines 183-193): copies the
discriminant, then placement-copies whichever member it selects from the
source; reading a non-constructed source member is UB (`none`).  The source
is taken by const reference and never written, which the purity of the
embedding captures. -/
def copyCtor (other : Result T E) : Option (Result T E) :=
  if other.has_value_ then
    other.value_.map fun v => { value_ := some v, error_ := none, has_value_ := true }
  else
    other.error_.map fun e => { value_ := none, error_ := some e, has_value_ := false }

/-- Embedding of the move constructor (lines 200-210): copies the
discriminant, then placement-constructs from `std::move` of the selected
source member.  The pair returned is (new object, residual source): the
source keeps its discriminant and its member stays constructed (moved-from
but alive and destructible). -/
def moveCtor (other : Result T E) : Option (Result T E × Result T E) :=
  if other.has_value_ then
    other.value_.map fun v =>
      ({ value_ := some v, error_ := none, has_value_ := true }, other)
  else
    other.error_.map fun e =>
      ({ value_ := none, error_ := some e, has_value_ := false }, other)

/-- Embedding of the copy assignment operator (lines 218-233).  `aliased`
models the `this != &other` pointer test: when `aliased = true` (self
assignment) the body is skipped and `*this` is returned unchanged; otherwise
the old live member is destroyed with `destruct()`, the discriminant is
copied, and the selected member is placement-copied from the source. -/
def copyAssign (self other : Result T E) (aliased : Bool) : Option (Result T E) :=
  if aliased then some self
  else
    (destruct self).bind fun _ =>
      if other.has_value_ then
        other.value_.map fun v => { value_ := some v, error_ := none, has_value_ := true }
      else
        other.error_.map fun e => { value_ := none, error_ := some e, has_value_ := false }

/-- Embedding of the move assignment operator (lines 241-256), with the same
`aliased` convention.  The pair returned is (new self, residual source);
on self assignment both are the unchanged object. -/
def moveAssign (self other : Result T E) (aliased : Bool) :
    Option (Result T E × Result T E) :=
  if aliased then some (self, self)
  else
    (destruct self).bind fun _ =>
      if other.has_value_ then
        other.value_.map fun v =>
          ({ value_ := some v, error_ := none, has_value_ := true }, other)
      else
        other.error_.map fun e =>
          ({ value_ := none, error_ := some e, has_value_ := false }, other)

/-- The discriminated-union invariant: exactly one union member is
constructed, and it is the one the `has_value_` flag selects. -/
def Invariant (r : Result T E) : Prop :=
  (r.has_value_ = true ∧ r.value_.isSome = true ∧ r.error_.isNone = true) ∨
  (r.has_value_ = false ∧ r.error_.isSome = true ∧ r.value_.isNone = true)

instance instDecidableInvariant (r : Result T E) : Decidable r.Invariant :=
  decidable_of_iff
    ((r.has_value_ = true ∧ r.value_.isSome = true ∧ r.error_.isNone = true) ∨
      (r.has_value_ = false ∧ r.error_.isSome = true ∧ r.value_.isNone = true))
    Iff.rfl

end Result

open Result

/-- A concrete value-holding instance, Result of Nat with value 5, used to
instantiate the universally quantified laws. -/
def rv : Result Nat Status := Result.ofValue id 5

/-- A concrete error-holding instance, Result of Nat with INVALID_ARG, used
to instantiate the universally quantified laws. -/
def re : Result Nat Status := Result.ofError Status.INVALID_ARG

/-- Helper: a state satisfying the invariant is exactly a canonical
value-holding or error-holding state. -/
theorem invariant_cases {T E : Type} (r : Result T E) (h : r.Invariant) :
    (∃ v, r = { value_ := some v, error_ := none, has_value_ := true }) ∨
    (∃ e, r = { value_ := none, error_ := some e, has_value_ := false }) := by
  obtain ⟨v1, e1, b1⟩ := r
  rcases h with ⟨h1, h2, h3⟩ | ⟨h1, h2, h3⟩
  · obtain ⟨v, hv⟩ := Option.isSome_iff_exists.mp h2
    have hb : b1 = true := h1
    have hv2 : v1 = some v := hv
    have he2 : e1 = none := Option.isNone_iff_eq_none.mp h3
    subst hb hv2 he2
    exact Or.inl ⟨v, rfl⟩
  · obtain ⟨e, he⟩ := Option.isSome_iff_exists.mp h2
    have hb : b1 = false := h1
    have he2 : e1 = some e := he
    have hv2 : v1 = none := Option.isNone_iff_eq_none.mp h3
    subst hb hv2 he2
    exact Or.inr ⟨e, rfl⟩

/-- Helper: a canonical value-holding state satisfies the invariant. -/
theorem invariant_value {T E : Type} (v : T) :
    (Result.mk (some v) none true : Result T E).Invariant :=
  Or.inl ⟨rfl, rfl, rfl⟩

/-- Helper: a canonical error-holding state satisfies the invariant. -/
theorem invariant_error {T E : Type} (e : E) :
    (Result.mk none (some e) false : Result T E).Invariant :=
  Or.inr ⟨rfl, rfl, rfl⟩

/-- Helper: under the invariant, the copy constructor succeeds and yields a
state equal to the source. -/
theorem copyCtor_eq {T E : Type} (r : Result T E) (h : r.Invariant) :
    Result.copyCtor r = some r := by
  rcases invariant_cases r h with ⟨v, rfl⟩ | ⟨e, rfl⟩ <;> rfl

/-- Helper: under the invariant, the move constructor succeeds, yielding a
new state equal to the source and a residual source with the same state. -/
theorem moveCtor_eq {T E : Type} (r : Result T E) (h : r.Invariant) :
    Result.moveCtor r = some (r, r) := by
  rcases invariant_cases r h with ⟨v, rfl⟩ | ⟨e, rfl⟩ <;> rfl

/-- Helper: under the invariant, the destructor body succeeds. -/
theorem destruct_eq {T E : Type} (r : Result T E) (h : r.Invariant) :
    Result.destruct r = some () := by
  rcases invariant_cases r h with ⟨v, rfl⟩ | ⟨e, rfl⟩ <;> rfl

/-- Helper: under both invariants, non-aliased copy assignment succeeds and
yields a state equal to the source. -/
theorem copyAssign_eq {T E : Type} (r s : Result T E)
    (hr : r.Invariant) (hs : s.Invariant) :
    Result.copyAssign r s false = some s := by
  rcases invariant_cases r hr with ⟨v, rfl⟩ | ⟨e, rfl⟩ <;>
    rcases invariant_cases s hs with ⟨w, rfl⟩ | ⟨f, rfl⟩ <;> rfl

/-- Helper: under both invariants, non-aliased move assignment succeeds,
yielding a new self equal to the source and a residual source with the same
state. -/
theorem moveAssign_eq {T E : Type} (r s : Result T E)
    (hr : r.Invariant) (hs : s.Invariant) :
    Result.moveAssign r s false = some (s, s) := by
  rcases invariant_cases r hr with ⟨v, rfl⟩ | ⟨e, rfl⟩ <;>
    rcases invariant_cases s hs with ⟨w, rfl⟩ | ⟨f, rfl⟩ <;> rfl

/-- C9: the error-code enumeration has exactly three named members, with the
fixed numeric values OK = 0, INVALID_ARG = 1, ERROR = 2, in that order, and
the members are pairwise distinct. -/
theorem status_exactly_three_members :
    Status.code .OK = 0 ∧ Status.code .INVALID_ARG = 1 ∧ Status.code .ERROR = 2 ∧
    (∀ s : Status, s = .OK ∨ s = .INVALID_ARG ∨ s = .ERROR) ∧
    (Status.OK ≠ .INVALID_ARG ∧ Status.OK ≠ .ERROR ∧ Status.INVALID_ARG ≠ .ERROR) := by
  refine ⟨rfl, rfl, rfl, ?_, by decide⟩
  intro s
  cases s <;> simp

/-- C8: for every default-constructible T (modelled by `Inhabited`), the
default-constructed Result has `hasValue = true` and its `getValue` is a
default-constructed T. -/
theorem default_ctor_holds_default {T E : Type} [Inhabited T] :
    (Result.mkDefault : Result T E).hasValue = true ∧
    (Result.mkDefault : Result T E).getValue = .ok (default : T) := by
  constructor <;> rfl

/-- C4: for every value v convertible to T (the conversion modelled by
`conv`, with the type of v distinct from E by the constructor's
`enable_if` exclusion), `Result<T>(v)` has `hasValue = true` and its
`getValue` is the T constructed from v. -/
theorem value_ctor_holds_value {T E U : Type} (conv : U → T) (v : U) :
    (Result.ofValue (E := E) conv v).hasValue = true ∧
    (Result.ofValue (E := E) conv v).getValue = .ok (conv v) := by
  constructor <;> rfl

/-- C3: for every error code c, `Result<T>(c)` has `hasValue = false` and
`getError = c`; and `Result<T>(createError(c))` is the very same state, so
it is observably identical. -/
theorem error_ctor_and_createError_agree {T : Type} (c : Status) :
    (Result.ofError (T := T) c).hasValue = false ∧
    (Result.ofError (T := T) c).getError = .ok c ∧
    Result.ofErrorCreate (T := T) (createError c) = Result.ofError (T := T) c := by
  refine ⟨rfl, rfl, rfl⟩

/-- C10: constructing a Result from the OK sentinel itself routes it to the
error alternative exactly like the failure codes: `hasValue = false`, the
boolean conversion is false, `getError` yields OK, and `getValue` raises the
no-value fault.  (The value constructor is excluded for arguments of type E
by its `enable_if`, lines 116-118, so `Result<T>(Status::OK)` selects the
error constructor.) -/
theorem ok_sentinel_routes_to_error {T : Type} :
    (Result.ofError (T := T) Status.OK).hasValue = false ∧
    (Result.ofError (T := T) Status.OK).toBool = false ∧
    (Result.ofError (T := T) Status.OK).getError = .ok Status.OK ∧
    (Result.ofError (T := T) Status.OK).getValue = .error .noValue := by
  refine ⟨rfl, rfl, rfl, rfl⟩

/-- C7: self-assignment (the `aliased = true` case of the pointer-identity
guard `this != &other`) is a no-op for both copy assignment and move
assignment: the object keeps the same discriminant and the same live
payload, being returned entirely unchanged. -/
theorem self_assignment_noop {T E : Type} (r : Result T E) :
    Result.copyAssign r r true = some r ∧
    Result.moveAssign r r true = some (r, r) := by
  constructor <;> rfl

/-- C1: the discriminated-union invariant — exactly one alternative live,
never both, never neither — is established by every constructor (default,
value, error, ErrorCreate) and preserved by copy/move construction, by
copy/move assignment (aliased or not), and by every accessor call, the
move-out overloads included. -/
theorem discriminated_union_invariant {T E U : Type} [Inhabited T]
    (conv : U → T) (u : U) (e : E) (ec : ErrorCreate E)
    (r s : Result T E) (hr : r.Invariant) (hs : s.Invariant) :
    (Result.mkDefault : Result T E).Invariant ∧
    (Result.ofValue (E := E) conv u).Invariant ∧
    (Result.ofError (T := T) e).Invariant ∧
    (Result.ofErrorCreate (T := T) ec).Invariant ∧
    (∀ c, Result.copyCtor r = some c → c.Invariant) ∧
    (∀ m res, Result.moveCtor r = some (m, res) → m.Invariant ∧ res.Invariant) ∧
    (∀ b a, Result.copyAssign r s b = some a → a.Invariant) ∧
    (∀ b a res, Result.moveAssign r s b = some (a, res) → a.Invariant ∧ res.Invariant) ∧
    (∀ v res, Result.getValueMove r = .ok (v, res) → res.Invariant) ∧
    (∀ e2 res, Result.getErrorMove r = .ok (e2, res) → res.Invariant) := by
  refine ⟨invariant_value _, invariant_value _, invariant_error _, invariant_error _,
    ?_, ?_, ?_, ?_, ?_, ?_⟩
  · intro c hc
    rw [copyCtor_eq r hr] at hc
    exact Option.some.inj hc ▸ hr
  · intro m res hc
    rw [moveCtor_eq r hr] at hc
    injection hc with h
    injection h with h1 h2
    exact ⟨h1 ▸ hr, h2 ▸ hr⟩
  · intro b a hc
    cases b
    · rw [copyAssign_eq r s hr hs] at hc
      exact Option.some.inj hc ▸ hs
    · exact Option.some.inj hc ▸ hr
  · intro b a res hc
    cases b
    · rw [moveAssign_eq r s hr hs] at hc
      injection hc with h
      injection h with h1 h2
      exact ⟨h1 ▸ hs, h2 ▸ hs⟩
    · injection hc with h
      injection h with h1 h2
      exact ⟨h1 ▸ hr, h2 ▸ hr⟩
  · intro v res hc
    rcases invariant_cases r hr with ⟨v0, rfl⟩ | ⟨e0, rfl⟩
    · injection hc with h
      injection h with h1 h2
      exact h2 ▸ invariant_value v0
    · exact nomatch hc
  · intro e2 res hc
    rcases invariant_cases r hr with ⟨v0, rfl⟩ | ⟨e0, rfl⟩
    · exact nomatch hc
    · injection hc with h
      injection h with h1 h2
      exact h2 ▸ invariant_error e0

/-- C1 witness: the invariant-preservation law instantiated at the concrete
value-holding instance rv and error-holding instance re. -/
theorem discriminated_union_invariant_witness :
    rv.Invariant ∧ re.Invariant ∧
    ((Result.mkDefault : Result Nat Status).Invariant ∧
     (Result.ofValue (E := Status) id 0).Invariant ∧
     (Result.ofError (T := Nat) Status.ERROR).Invariant ∧
     (Result.ofErrorCreate (T := Nat) (createError Status.OK)).Invariant ∧
     (∀ c, Result.copyCtor rv = some c → c.Invariant) ∧
     (∀ m res, Result.moveCtor rv = some (m, res) → m.Invariant ∧ res.Invariant) ∧
     (∀ b a, Result.copyAssign rv re b = some a → a.Invariant) ∧
     (∀ b a res, Result.moveAssign rv re b = some (a, res) → a.Invariant ∧ res.Invariant) ∧
     (∀ v res, Result.getValueMove rv = .ok (v, res) → res.Invariant) ∧
     (∀ e2 res, Result.getErrorMove rv = .ok (e2, res) → res.Invariant)) :=
  ⟨by decide, by decide,
    discriminated_union_invariant id 0 Status.ERROR (createError Status.OK) rv re
      (by decide) (by decide)⟩

/-- C2: fail-fast law — on an invariant-satisfying instance, getValue (both
the borrowing and the move-out overloads) raises the no-value fault exactly
when the error alternative is live, and getError raises the no-error fault
exactly when the success alternative is live; in the opposite situations the
accessors succeed without a fault. -/
theorem accessors_fail_fast {T E : Type} (r : Result T E) (h : r.Invariant) :
    (r.hasValue = false →
      r.getValue = .error .noValue ∧
      r.getValueMove = .error .noValue ∧
      (∃ e, r.getError = .ok e) ∧ (∃ e, r.getErrorMove = .ok (e, r))) ∧
    (r.hasValue = true →
      r.getError = .error .noError ∧
      r.getErrorMove = .error .noError ∧
      (∃ v, r.getValue = .ok v) ∧ (∃ v, r.getValueMove = .ok (v, r))) := by
  rcases invariant_cases r h with ⟨v, rfl⟩ | ⟨e, rfl⟩
  · constructor
    · intro hc
      exact nomatch hc
    · intro hc
      exact ⟨rfl, rfl, ⟨v, rfl⟩, ⟨v, rfl⟩⟩
  · constructor
    · intro hc
      exact ⟨rfl, rfl, ⟨e, rfl⟩, ⟨e, rfl⟩⟩
    · intro hc
      exact nomatch hc

/-- C2 witness: the fail-fast law instantiated at the concrete error-holding
instance re. -/
theorem accessors_fail_fast_witness :
    re.Invariant ∧
    ((re.hasValue = false →
        re.getValue = .error .noValue ∧
        re.getValueMove = .error .noValue ∧
        (∃ e, re.getError = .ok e) ∧ (∃ e, re.getErrorMove = .ok (e, re))) ∧
     (re.hasValue = true →
        re.getError = .error .noError ∧
        re.getErrorMove = .error .noError ∧
        (∃ v, re.getValue = .ok v) ∧ (∃ v, re.getValueMove = .ok (v, re)))) :=
  ⟨by decide, accessors_fail_fast re (by decide)⟩

/-- C5: copy law — for any invariant-satisfying Result r, copy construction
succeeds, the copy has the same discriminant and the same payload slots as
r, and the copy itself satisfies the invariant; the source is passed by
const reference and left unchanged, which the purity of the embedding
captures. -/
theorem copy_ctor_duplicates {T E : Type} (r : Result T E) (h : r.Invariant) :
    ∃ c, Result.copyCtor r = some c ∧ c.hasValue = r.hasValue ∧
      c.value_ = r.value_ ∧ c.error_ = r.error_ ∧ c.Invariant :=
  ⟨r, copyCtor_eq r h, rfl, rfl, rfl, h⟩

/-- C5 witness: the copy law instantiated at the concrete value-holding
instance rv. -/
theorem copy_ctor_duplicates_witness :
    rv.Invariant ∧
    (∃ c, Result.copyCtor rv = some c ∧ c.hasValue = rv.hasValue ∧
      c.value_ = rv.value_ ∧ c.error_ = rv.error_ ∧ c.Invariant) :=
  ⟨by decide, copy_ctor_duplicates rv (by decide)⟩

/-- C6: move law — for any invariant-satisfying Result r, move construction
succeeds; the new object has r's pre-move discriminant and payload, and the
residual source keeps its discriminant, remains safely destructible, and
the new object satisfies the invariant. -/
theorem move_ctor_transfers {T E : Type} (r : Result T E) (h : r.Invariant) :
    ∃ m res, Result.moveCtor r = some (m, res) ∧
      m.hasValue = r.hasValue ∧ m.value_ = r.value_ ∧ m.error_ = r.error_ ∧
      res.hasValue = r.hasValue ∧ Result.destruct res = some () ∧ m.Invariant :=
  ⟨r, r, moveCtor_eq r h, rfl, rfl, rfl, rfl, destruct_eq r h, h⟩

/-- C6 witness: the move law instantiated at the concrete error-holding
instance re. -/
theorem move_ctor_transfers_witness :
    re.Invariant ∧
    (∃ m res, Result.moveCtor re = some (m, res) ∧
      m.hasValue = re.hasValue ∧ m.value_ = re.value_ ∧ m.error_ = re.error_ ∧
      res.hasValue = re.hasValue ∧ Result.destruct res = some () ∧ m.Invariant) :=
  ⟨by decide, move_ctor_transfers re (by decide)⟩

end CustomLibrary
